import Mathlib

/-!
Shallow embedding of the FoxControl gateway core (src/gateway.hpp,
src/gateway.cpp, src/dto.hpp): the bounded task queue, the device-state
record, the two-tier credential checks and the HTTP request handlers.
Handlers are modelled as pure functions from a gateway state and a parsed
JSON request body to the successor state and the response they produce.
Randomness in password generation is modelled by an explicit stream of
draws (a function from position to an index into the fixed alphabet).
-/

namespace FoxGateway

/-- Task payloads, from `fox::dto::Task` in dto.hpp: the tagged union
with `POWER`, `SPEED` and `MODE` variants (the active payload determines
the tag, so the union is a sum type). -/
inductive Task where
  | power (is_on : Bool)
  | speed (speed : Int)
  | mode (mode : Nat)
  deriving Repr, DecidableEq

/-- Device state record, from `fox::dto::DeviceState`. -/
structure DeviceState where
  accepts_commands : Bool
  is_on : Bool
  target_speed : Nat
  actual_speed : Nat
  mode : Nat
  deriving Repr, DecidableEq

/-- The whole mutable state of a `fox::Gateway` instance relevant to the
request handlers: configuration (`_backlog`, `_password`), the session
credential, the online flag, the task queue, the device state and the two
lifetime counters. -/
structure GatewayState where
  backlog : Nat
  password : String
  session_password : String
  is_online : Bool
  tasks : List Task
  device_state : DeviceState
  total_task_count : Nat
  total_processed_count : Nat
  deriving Repr, DecidableEq

/-- State immediately after the `Gateway` constructor: empty queue,
offline, no session, zeroed counters, value-initialised device state. -/
def initial_state (backlog : Nat) (password : String) : GatewayState :=
  { backlog := backlog
    password := password
    session_password := ""
    is_online := false
    tasks := []
    device_state :=
      { accepts_commands := false, is_on := false, target_speed := 0
        actual_speed := 0, mode := 0 }
    total_task_count := 0
    total_processed_count := 0 }

/-- A single element of the `tasks` array in an enqueue request body:
whether the JSON value is an object, whether it has a `type` key, and the
task its deserialization yields when both hold. -/
structure TaskEntry where
  isObject : Bool
  hasType : Bool
  task : Task
  deriving Repr, DecidableEq

/-- The `tasks` field of an enqueue request body. -/
inductive TasksField where
  | notArray
  | array (entries : List TaskEntry)
  deriving Repr, DecidableEq

/-- The `state` field of a setstate request body. -/
inductive StateField where
  | notObject
  | object (st : DeviceState)
  deriving Repr, DecidableEq

/-- A parsed JSON request body, restricted to the fields the handlers
read. `isObject` is false when the parsed value is not a JSON object, in
which case `contains` on it finds no key. -/
structure ReqBody where
  isObject : Bool
  password : Option String := none
  new_password : Option String := none
  length : Option Nat := none
  is_online : Option Bool := none
  tasks : Option TasksField := none
  state : Option StateField := none
  deriving Repr, DecidableEq

/-- Result of `json.contains("password")` combined with the read of the
key: a non-object JSON value contains no keys. -/
def ReqBody.passwordField (j : ReqBody) : Option String :=
  if j.isObject then j.password else none

/-- Result of `json.contains("new_password")` combined with the read. -/
def ReqBody.newPasswordField (j : ReqBody) : Option String :=
  if j.isObject then j.new_password else none

/-- Result of `json.contains("length")` combined with the read. -/
def ReqBody.lengthField (j : ReqBody) : Option Nat :=
  if j.isObject then j.length else none

/-- Result of `json.contains("is_online")` combined with the read. -/
def ReqBody.isOnlineField (j : ReqBody) : Option Bool :=
  if j.isObject then j.is_online else none

/-- Result of `json.contains("tasks")` combined with the read. -/
def ReqBody.tasksField (j : ReqBody) : Option TasksField :=
  if j.isObject then j.tasks else none

/-- Result of `json.contains("state")` combined with the read. -/
def ReqBody.stateField (j : ReqBody) : Option StateField :=
  if j.isObject then j.state else none

/-- An HTTP response as the handlers build it: the numeric status and the
JSON body fields any handler ever sets (the `timestamp` field is omitted:
it is wall-clock time, set on every JSON body alike). -/
structure Response where
  status : Nat := 200
  statusField : Option Bool := none
  error : Option String := none
  password : Option String := none
  queued : Option Nat := none
  previous : Option Bool := none
  tasks : Option (List Task) := none
  stateBody : Option (DeviceState × Bool) := none
  deriving Repr, DecidableEq

/-- Model of `Gateway::send_error`: the given status code plus a body
carrying a false `status` and the error message. -/
def send_error (status : Nat) (message : String) : Response :=
  { status := status, statusField := some false, error := some message }

/-- Model of `Gateway::validate_server_password`: requires a `password`
key whose value is non-empty and equal to the persistent `_password`. -/
def validate_server_password (s : GatewayState) (j : ReqBody) : Bool :=
  match j.passwordField with
  | none => false
  | some password =>
    if password = "" ∨ password ≠ s.password then false else true

/-- Model of `Gateway::validate_client_password`: requires a `password`
key whose value is non-empty and equal to the non-empty
`_session_password`. -/
def validate_client_password (s : GatewayState) (j : ReqBody) : Bool :=
  match j.passwordField with
  | none => false
  | some password =>
    if password = "" ∨ s.session_password = "" ∨ password ≠ s.session_password
    then false else true

/-- The fixed alphabet of `Gateway::generate_password`. -/
def allowed_chars : List Char :=
  "abcdefghijklmnopqrstuvwxyzABCDEFGHIJKLMNOPQRSTUVWXYZ0123456789,.-_/()#+!?".toList

/-- Model of `Gateway::generate_password`: `length` draws from the
alphabet. The uniform draw at position `i` is modelled as
`rand i % allowed_chars.length`, an arbitrary in-range index. -/
def generate_password (rand : Nat → Nat) (length : Nat) : String :=
  String.mk ((List.range length).map
    (fun i => allowed_chars.getD (rand i % allowed_chars.length) 'a'))

/-- Model of `Gateway::enqueue_task`: reject without mutation when the
queue already holds at least `_backlog` tasks, otherwise push at the tail
and bump `_total_task_count`. -/
def enqueue_task (s : GatewayState) (t : Task) : Bool × GatewayState :=
  if s.tasks.length ≥ s.backlog then (false, s)
  else (true, { s with tasks := s.tasks ++ [t],
                       total_task_count := s.total_task_count + 1 })

/-- Model of `Gateway::dequeue_task`: pop the front task if any and bump
`_total_processed_count`. -/
def dequeue_task (s : GatewayState) : Option Task × GatewayState :=
  match s.tasks with
  | [] => (none, s)
  | t :: rest =>
    (some t, { s with tasks := rest,
                      total_processed_count := s.total_processed_count + 1 })

/-- The loop body of `Gateway::dequeue_and_compile`: `n` iterations, each
serializing the task `dequeue_task` pops (an empty pop contributes
nothing; it cannot occur when `n` is at most the queue length). -/
def drainN : Nat → GatewayState → List Task × GatewayState
  | 0, s => ([], s)
  | n + 1, s =>
    match dequeue_task s with
    | (some t, s1) =>
      let r := drainN n s1
      (t :: r.1, r.2)
    | (none, s1) => drainN n s1

/-- Model of `Gateway::dequeue_and_compile`: read the current queue size,
then pop and serialize that many tasks. -/
def dequeue_and_compile (s : GatewayState) : List Task × GatewayState :=
  drainN s.tasks.length s

/-- The `clear` admin-console command: empty the task queue. -/
def clear_command (s : GatewayState) : GatewayState :=
  { s with tasks := [] }

/-- Model of `Gateway::handle_authenticate`: always HTTP 200 with the
boolean result of the client-tier check; no state change. -/
def handle_authenticate (s : GatewayState) (j : ReqBody) :
    GatewayState × Response :=
  (s, { statusField := some (validate_client_password s j) })

/-- Model of `Gateway::handle_getstate`. -/
def handle_getstate (s : GatewayState) (j : ReqBody) :
    GatewayState × Response :=
  if !j.isObject then (s, send_error 500 "Invalid request body type")
  else if !validate_client_password s j then
    (s, send_error 401 "Invalid password")
  else (s, { stateBody := some (s.device_state, s.is_online) })

/-- The enqueue loop of `Gateway::handle_enqueue`: entries that are not
objects or lack a `type` key are skipped; each successful `enqueue_task`
bumps `queued_count`. -/
def enqueue_loop : GatewayState → List TaskEntry → Nat → GatewayState × Nat
  | s, [], n => (s, n)
  | s, e :: rest, n =>
    if e.isObject && e.hasType then
      let r := enqueue_task s e.task
      enqueue_loop r.2 rest (if r.1 then n + 1 else n)
    else enqueue_loop s rest n

/-- Model of `Gateway::handle_enqueue`. The response `status` field is
true iff every element of the `tasks` array was enqueued. -/
def handle_enqueue (s : GatewayState) (j : ReqBody) :
    GatewayState × Response :=
  if !j.isObject then (s, send_error 500 "Invalid request body type")
  else if !validate_client_password s j then
    (s, send_error 401 "Invalid password")
  else
    match j.tasksField with
    | none => (s, send_error 500 "Missing tasks list")
    | some TasksField.notArray => (s, send_error 500 "Invalid tasks list type")
    | some (TasksField.array entries) =>
      let r := enqueue_loop s entries 0
      (r.1, { statusField := some (decide (r.2 = entries.length)),
              queued := some r.2 })

/-- Model of `Gateway::handle_fetch`. -/
def handle_fetch (s : GatewayState) (j : ReqBody) :
    GatewayState × Response :=
  if !j.isObject then (s, send_error 500 "Invalid request body type")
  else if !validate_server_password s j then
    (s, send_error 401 "Invalid password")
  else
    let r := dequeue_and_compile s
    (r.2, { tasks := some r.1 })

/-- Model of `Gateway::handle_setonline`: on `is_online = false` the
session password is cleared before the flag is stored. -/
def handle_setonline (s : GatewayState) (j : ReqBody) :
    GatewayState × Response :=
  if !j.isObject then (s, send_error 500 "Invalid request body type")
  else if !validate_server_password s j then
    (s, send_error 401 "Invalid password")
  else
    match j.isOnlineField with
    | none => (s, send_error 500 "Invalid property type")
    | some new_state =>
      let previous := s.is_online
      let s1 := if !new_state then { s with session_password := "" } else s
      ({ s1 with is_online := new_state },
       { statusField := some (new_state != previous),
         previous := some previous })

/-- Model of `Gateway::handle_setstate`: wholesale replacement of the
device state record; the success response carries status 200 and no body
fields. -/
def handle_setstate (s : GatewayState) (j : ReqBody) :
    GatewayState × Response :=
  if !j.isObject then (s, send_error 500 "Invalid request body type")
  else if !validate_server_password s j then
    (s, send_error 401 "Invalid password")
  else
    match j.stateField with
    | none => (s, send_error 500 "Missing state object")
    | some StateField.notObject => (s, send_error 500 "Invalid state object type")
    | some (StateField.object st) =>
      ({ s with device_state := st }, {})

/-- Model of `Gateway::handle_newsession`: the session-in-progress check
precedes everything else; then body-type and server-password checks; then
the secret is the caller's `new_password` if present, else a generated
string of the requested length (default 16, lengths below 10 rejected). -/
def handle_newsession (rand : Nat → Nat) (s : GatewayState) (j : ReqBody) :
    GatewayState × Response :=
  if s.session_password ≠ "" then
    (s, send_error 401 "Session already in progress")
  else if !j.isObject then (s, send_error 500 "Invalid request body type")
  else if !validate_server_password s j then
    (s, send_error 401 "Invalid password")
  else
    match j.newPasswordField with
    | some p => ({ s with session_password := p }, { password := some p })
    | none =>
      match j.lengthField with
      | some n =>
        if n < 10 then
          (s, send_error 500
            "Invalid password length, needs to be at least 10 characters")
        else
          let p := generate_password rand n
          ({ s with session_password := p }, { password := some p })
      | none =>
        let p := generate_password rand 16
        ({ s with session_password := p }, { password := some p })

/-- Enqueueing a list of tasks one by one (the shape of scenario-style
sequences of `enqueue_task` calls). -/
def enqueueAll (s : GatewayState) (ts : List Task) : GatewayState :=
  ts.foldl (fun s t => (enqueue_task s t).2) s

/-- Concrete state with the session password equal to the server
password, reachable by a `newsession` call supplying the server password
as `new_password`. -/
def crossState : GatewayState := { initial_state 4 "abc" with session_password := "abc" }

/-- Concrete request presenting the server password of `crossState`. -/
def crossReq : ReqBody := { isObject := true, password := some "abc" }

/-- Concrete state with an active session, for the missing-field
counterexample. -/
def missState : GatewayState :=
  { initial_state 4 "serverpw" with session_password := "sesspw" }

/-- Concrete enqueue request body lacking the required `password` key. -/
def missReq : ReqBody := { isObject := true, tasks := some (TasksField.array []) }

/-- Concrete fresh gateway state for the newsession scenarios. -/
def wS1 : GatewayState := initial_state 2 "secret"

/-- Concrete newsession request with the valid server password. -/
def wJ1 : ReqBody := { isObject := true, password := some "secret", length := some 12 }

/-- Concrete online state with an active session. -/
def wS2 : GatewayState :=
  { initial_state 2 "secret" with session_password := "sess-pw", is_online := true }

/-- Concrete `setonline(false)` request with the valid server password. -/
def wJ2 : ReqBody := { isObject := true, password := some "secret", is_online := some false }

/-- Concrete client request presenting the session password of `wS2`. -/
def wJ2c : ReqBody := { isObject := true, password := some "sess-pw" }

/-- Concrete empty gateway state with backlog 1. -/
def wS3 : GatewayState := initial_state 1 "pw"

/-- Concrete state whose session and server passwords differ. -/
def wS4 : GatewayState :=
  { initial_state 2 "server-pw" with session_password := "client-pw" }

/-- Concrete request presenting the server password of `wS4`. -/
def wJ4s : ReqBody := { isObject := true, password := some "server-pw" }

/-- Concrete request presenting the session password of `wS4`. -/
def wJ4c : ReqBody := { isObject := true, password := some "client-pw" }

/-- Concrete state with an active session, for the error-taxonomy
witness. -/
def wS7 : GatewayState := { initial_state 2 "srv" with session_password := "client-pw" }

/-- Concrete authenticated enqueue request lacking the `tasks` key. -/
def wJ7 : ReqBody := { isObject := true, password := some "client-pw" }

/-- Concrete full queue at backlog 1. -/
def wS8 : GatewayState := { initial_state 1 "pw" with tasks := [Task.power true] }

/-- Concrete fresh gateway state for the generated-password witness. -/
def wS9 : GatewayState := initial_state 2 "secret"

/-- Concrete newsession request asking for a 12-character password. -/
def wJ9 : ReqBody := { isObject := true, password := some "secret", length := some 12 }

/-- Concrete sessionless gateway state. -/
def wS10 : GatewayState := initial_state 2 "pw"

/-- Concrete client request against a sessionless gateway. -/
def wJ10 : ReqBody := { isObject := true, password := some "anything" }

/-- Characterization of the client-tier check: it succeeds exactly when a
session is active and the request carries exactly that secret. -/
theorem validate_client_iff (s : GatewayState) (j : ReqBody) :
    validate_client_password s j = true ↔
      s.session_password ≠ "" ∧ j.passwordField = some s.session_password := by
  unfold validate_client_password
  cases h : j.passwordField with
  | none => simp [h]
  | some p =>
    by_cases h3 : p = s.session_password
    · by_cases h2 : s.session_password = "" <;> simp [h3, h2]
    · simp [h3]

/-- Characterization of the device-tier check: it succeeds exactly when
the server password is non-empty and the request carries it. -/
theorem validate_server_iff (s : GatewayState) (j : ReqBody) :
    validate_server_password s j = true ↔
      s.password ≠ "" ∧ j.passwordField = some s.password := by
  unfold validate_server_password
  cases h : j.passwordField with
  | none => simp [h]
  | some p =>
    by_cases h3 : p = s.password
    · by_cases h1 : s.password = "" <;> simp [h3, h1]
    · simp [h3]

/-- A body that passes the device-tier check is a JSON object. -/
theorem validate_server_isObject (s : GatewayState) (j : ReqBody)
    (h : validate_server_password s j = true) : j.isObject = true := by
  rcases (validate_server_iff s j).mp h with ⟨-, hp⟩
  by_contra hobj
  simp [ReqBody.passwordField, hobj] at hp

/-- A body that passes the client-tier check is a JSON object. -/
theorem validate_client_isObject (s : GatewayState) (j : ReqBody)
    (h : validate_client_password s j = true) : j.isObject = true := by
  rcases (validate_client_iff s j).mp h with ⟨-, hp⟩
  by_contra hobj
  simp [ReqBody.passwordField, hobj] at hp

/-- Draining exactly the current queue length pops every queued task in
order, empties the queue and adds the popped count to
`total_processed_count`. -/
theorem drainN_spec (l : List Task) :
    ∀ s : GatewayState, s.tasks = l →
      drainN l.length s =
        (l, { s with tasks := [],
                     total_processed_count := s.total_processed_count + l.length }) := by
  induction l with
  | nil =>
    intro s h
    simp [drainN]
    cases s
    simp_all
  | cons t rest ih =>
    intro s h
    have hdq : dequeue_task s =
        (some t, { s with tasks := rest,
                          total_processed_count := s.total_processed_count + 1 }) := by
      simp [dequeue_task, h]
    rw [List.length_cons]
    simp only [drainN, hdq]
    rw [ih { s with tasks := rest,
                    total_processed_count := s.total_processed_count + 1 } rfl]
    simp
    omega

/-- Executable form of `dequeue_and_compile`: it returns the whole queue
in FIFO order and empties it. -/
theorem dequeue_and_compile_spec (s : GatewayState) :
    dequeue_and_compile s =
      (s.tasks, { s with tasks := [],
                         total_processed_count :=
                           s.total_processed_count + s.tasks.length }) := by
  unfold dequeue_and_compile
  exact drainN_spec s.tasks s rfl

/-- Enqueueing a list that fits within the remaining capacity appends it
wholesale and counts every element. -/
theorem enqueueAll_spec (ts : List Task) :
    ∀ s : GatewayState, s.tasks.length + ts.length ≤ s.backlog →
      enqueueAll s ts =
        { s with tasks := s.tasks ++ ts,
                 total_task_count := s.total_task_count + ts.length } := by
  induction ts with
  | nil =>
    intro s _
    simp [enqueueAll]
  | cons t rest ih =>
    intro s h
    have hlt : s.tasks.length < s.backlog := by
      simp [List.length_cons] at h
      omega
    have hstep : enqueue_task s t =
        (true, { s with tasks := s.tasks ++ [t],
                        total_task_count := s.total_task_count + 1 }) := by
      simp [enqueue_task, Nat.not_le.mpr hlt]
    simp only [enqueueAll, List.foldl_cons]
    rw [hstep]
    have := ih { s with tasks := s.tasks ++ [t],
                        total_task_count := s.total_task_count + 1 }
      (by simp [List.length_cons] at h ⊢; omega)
    simp only [enqueueAll] at this
    rw [this]
    simp
    omega

/-- A generated password has exactly the requested length. -/
theorem generate_password_length (rand : Nat → Nat) (n : Nat) :
    (generate_password rand n).length = n := by
  simp [generate_password, String.length]

/-- Every character of a generated password is drawn from the fixed
alphabet. -/
theorem generate_password_chars (rand : Nat → Nat) (n : Nat) :
    ∀ c ∈ (generate_password rand n).data, c ∈ allowed_chars := by
  intro c hc
  simp only [generate_password] at hc
  rcases List.mem_map.mp hc with ⟨i, -, rfl⟩
  have hlt : rand i % allowed_chars.length < allowed_chars.length :=
    Nat.mod_lt _ (by decide)
  rw [List.getD_eq_getElem?_getD, List.getElem?_eq_getElem hlt]
  simp

/-- Claim C3: `enqueue_task` returns false and leaves the queue and both
counters unchanged exactly when the queue length is at least the backlog;
otherwise it appends the task at the tail, bumps `total_task_count` and
returns true; at length exactly backlog, the next enqueue returns false
and the length stays at backlog. -/
theorem enqueue_task_spec (s : GatewayState) (t : Task) :
    (enqueue_task s t = (false, s) ↔ s.backlog ≤ s.tasks.length) ∧
    (s.tasks.length < s.backlog →
      enqueue_task s t =
        (true, { s with tasks := s.tasks ++ [t],
                        total_task_count := s.total_task_count + 1 })) ∧
    (s.tasks.length = s.backlog →
      (enqueue_task s t).1 = false ∧ (enqueue_task s t).2.tasks.length = s.backlog) := by
  unfold enqueue_task
  by_cases h : s.tasks.length ≥ s.backlog
  · simp [h]
  · have hlt := Nat.lt_of_not_le (fun hc => h hc)
    simp [h]
    omega

/-- Witness for claim C3 at a concrete non-full queue. -/
theorem enqueue_task_spec_witness :
    wS3.tasks.length < wS3.backlog ∧
    enqueue_task wS3 (Task.power true) =
      (true, { wS3 with tasks := wS3.tasks ++ [Task.power true],
                        total_task_count := wS3.total_task_count + 1 }) :=
  ⟨by decide, (enqueue_task_spec wS3 (Task.power true)).2.1 (by decide)⟩

/-- Claim C5: `authenticate` never mutates state, always answers HTTP 200
with no error, and its boolean `status` field is true exactly when the
request carries the currently active session password. -/
theorem authenticate_spec (s : GatewayState) (j : ReqBody) :
    (handle_authenticate s j).1 = s ∧
    (handle_authenticate s j).2.status = 200 ∧
    (handle_authenticate s j).2.error = none ∧
    (∃ b, (handle_authenticate s j).2.statusField = some b) ∧
    ((handle_authenticate s j).2.statusField = some true ↔
      s.session_password ≠ "" ∧ j.passwordField = some s.session_password) := by
  refine ⟨rfl, rfl, rfl, ⟨validate_client_password s j, rfl⟩, ?_⟩
  simpa [handle_authenticate] using validate_client_iff s j

/-- Claim C10: the client-tier check fails whenever the supplied password
is empty or no session password is stored; with no active session no
password authenticates on authenticate, getstate or enqueue. -/
theorem client_auth_requires_session (s : GatewayState) (j : ReqBody) :
    (j.passwordField = some "" ∨ s.session_password = "" →
      validate_client_password s j = false) ∧
    (s.session_password = "" →
      (handle_authenticate s j).2.statusField = some false ∧
      (j.isObject = true →
        (handle_getstate s j).2.status = 401 ∧
        (handle_enqueue s j).2.status = 401)) := by
  have hfalse : j.passwordField = some "" ∨ s.session_password = "" →
      validate_client_password s j = false := by
    intro hcase
    rw [Bool.eq_false_iff]
    intro htrue
    rcases (validate_client_iff s j).mp htrue with ⟨hne, hp⟩
    rcases hcase with hpw | hsess
    · rw [hp] at hpw
      exact hne (Option.some.inj hpw)
    · exact hne hsess
  refine ⟨hfalse, fun hsess => ⟨?_, fun hobj => ⟨?_, ?_⟩⟩⟩
  · simp [handle_authenticate, hfalse (Or.inr hsess)]
  · simp [handle_getstate, hobj, hfalse (Or.inr hsess), send_error]
  · simp [handle_enqueue, hobj, hfalse (Or.inr hsess), send_error]

/-- Witness for claim C10 at a concrete sessionless state. -/
theorem client_auth_requires_session_witness :
    validate_client_password wS10 wJ10 = false ∧
    (handle_authenticate wS10 wJ10).2.statusField = some false ∧
    (handle_getstate wS10 wJ10).2.status = 401 ∧
    (handle_enqueue wS10 wJ10).2.status = 401 :=
  ⟨(client_auth_requires_session wS10 wJ10).1 (Or.inr (by decide)),
   ((client_auth_requires_session wS10 wJ10).2 (by decide)).1,
   (((client_auth_requires_session wS10 wJ10).2 (by decide)).2 (by decide)).1,
   (((client_auth_requires_session wS10 wJ10).2 (by decide)).2 (by decide)).2⟩

/-- Claim C6: draining a queue filled from empty (within the backlog, no
interleaved operations) returns exactly the enqueued sequence in FIFO
order, leaves the queue empty, and adds one to `total_processed_count`
per task removed. -/
theorem drain_returns_fifo (b : Nat) (pw : String) (ts : List Task)
    (h : ts.length ≤ b) :
    (dequeue_and_compile (enqueueAll (initial_state b pw) ts)).1 = ts ∧
    (dequeue_and_compile (enqueueAll (initial_state b pw) ts)).2.tasks = [] ∧
    (dequeue_and_compile (enqueueAll (initial_state b pw) ts)).2.total_processed_count =
      (enqueueAll (initial_state b pw) ts).total_processed_count + ts.length := by
  have henq := enqueueAll_spec ts (initial_state b pw) (by simp [initial_state, h])
  rw [henq]
  rw [dequeue_and_compile_spec]
  simp [initial_state]

/-- Witness for claim C6 at the spec's concrete scenario (backlog 2, a
power task then a speed task). -/
theorem drain_returns_fifo_witness :
    (dequeue_and_compile (enqueueAll (initial_state 2 "pw")
      [Task.power true, Task.speed 5])).1 = [Task.power true, Task.speed 5] ∧
    (dequeue_and_compile (enqueueAll (initial_state 2 "pw")
      [Task.power true, Task.speed 5])).2.tasks = [] ∧
    (dequeue_and_compile (enqueueAll (initial_state 2 "pw")
      [Task.power true, Task.speed 5])).2.total_processed_count =
      (enqueueAll (initial_state 2 "pw")
        [Task.power true, Task.speed 5]).total_processed_count + 2 :=
  drain_returns_fifo 2 "pw" [Task.power true, Task.speed 5] (by decide)

/-- Claim C8: the bound `len(queue) ≤ backlog` holds initially and is
preserved by `enqueue_task`, `dequeue_task`, the drain and the admin
`clear` command; an enqueue against a full queue changes nothing. -/
theorem queue_bound_invariant (s : GatewayState) (t : Task) (b : Nat) (pw : String)
    (h : s.tasks.length ≤ s.backlog) :
    (initial_state b pw).tasks.length ≤ (initial_state b pw).backlog ∧
    ((enqueue_task s t).2.tasks.length ≤ (enqueue_task s t).2.backlog ∧
      (s.backlog ≤ s.tasks.length → (enqueue_task s t).2 = s)) ∧
    (dequeue_task s).2.tasks.length ≤ (dequeue_task s).2.backlog ∧
    (dequeue_and_compile s).2.tasks.length ≤ (dequeue_and_compile s).2.backlog ∧
    (clear_command s).tasks.length ≤ (clear_command s).backlog := by
  refine ⟨by simp [initial_state], ⟨?_, ?_⟩, ?_, ?_, ?_⟩
  · by_cases hfull : s.tasks.length ≥ s.backlog
    · simp [enqueue_task, hfull]
      omega
    · simp [enqueue_task, hfull]
      omega
  · intro hfull
    simp [enqueue_task, hfull]
  · cases htl : s.tasks with
    | nil => simp [dequeue_task, htl, h]
    | cons a l =>
      simp [dequeue_task, htl]
      rw [htl] at h
      simp at h
      omega
  · rw [dequeue_and_compile_spec]
    simp
  · simp [clear_command]

/-- Witness for claim C8 at a concrete full queue (backlog 1, one task):
the rejected enqueue keeps the bound and changes nothing. -/
theorem queue_bound_invariant_witness :
    (enqueue_task wS8 (Task.speed 2)).2.tasks.length ≤
      (enqueue_task wS8 (Task.speed 2)).2.backlog ∧
    (enqueue_task wS8 (Task.speed 2)).2 = wS8 :=
  ⟨(queue_bound_invariant wS8 (Task.speed 2) 3 "x" (by decide)).2.1.1,
   (queue_bound_invariant wS8 (Task.speed 2) 3 "x" (by decide)).2.1.2 (by decide)⟩

/-- Counterexample to claim C4 as stated: when the minted session
password equals the server password — reachable via `newsession` with
`new_password` set to the server password — presenting the server
password at the client tier succeeds. -/
theorem tier_crossover_at_equal_secrets :
    crossReq.passwordField = some crossState.password ∧
    validate_client_password crossState crossReq = true := by
  constructor <;> rfl

/-- Claim C4 amended: whenever the stored session password differs from
the server password, presenting the server password at the client tier
and presenting the session password at the device tier both fail. -/
theorem tiers_not_interchangeable (s : GatewayState) (j : ReqBody)
    (hne : s.session_password ≠ s.password) :
    (j.passwordField = some s.password → validate_client_password s j = false) ∧
    (j.passwordField = some s.session_password → validate_server_password s j = false) := by
  constructor
  · intro hp
    rw [Bool.eq_false_iff]
    intro htrue
    rcases (validate_client_iff s j).mp htrue with ⟨-, hp2⟩
    rw [hp] at hp2
    exact hne (Option.some.inj hp2).symm
  · intro hp
    rw [Bool.eq_false_iff]
    intro htrue
    rcases (validate_server_iff s j).mp htrue with ⟨-, hp2⟩
    rw [hp] at hp2
    exact hne (Option.some.inj hp2)

/-- Witness for the amended claim C4 at a concrete state with distinct
secrets. -/
theorem tiers_not_interchangeable_witness :
    validate_client_password wS4 wJ4s = false ∧
    validate_server_password wS4 wJ4c = false :=
  ⟨(tiers_not_interchangeable wS4 wJ4s (by decide)).1 (by decide),
   (tiers_not_interchangeable wS4 wJ4c (by decide)).2 (by decide)⟩

/-- Claim C2: `setonline` with a valid server password and
`is_online = false` turns the flag off and clears the session password;
any password that passed the client-tier check immediately before now
fails it, and enqueue and getstate answer HTTP 401 for it. -/
theorem setonline_false_revokes_session (s : GatewayState) (j : ReqBody)
    (hauth : validate_server_password s j = true)
    (hfield : j.isOnlineField = some false) :
    (handle_setonline s j).1.is_online = false ∧
    (handle_setonline s j).1.session_password = "" ∧
    (∀ j2 : ReqBody, validate_client_password s j2 = true →
      validate_client_password (handle_setonline s j).1 j2 = false ∧
      (handle_enqueue (handle_setonline s j).1 j2).2.status = 401 ∧
      (handle_getstate (handle_setonline s j).1 j2).2.status = 401) := by
  have hobj := validate_server_isObject s j hauth
  have hres : (handle_setonline s j).1 =
      { s with session_password := "", is_online := false } := by
    simp [handle_setonline, hobj, hauth, hfield]
  rw [hres]
  refine ⟨rfl, rfl, fun j2 h2 => ?_⟩
  have hobj2 := validate_client_isObject s j2 h2
  have hfalse : validate_client_password
      { s with session_password := "", is_online := false } j2 = false := by
    rw [Bool.eq_false_iff]
    intro htrue
    rcases (validate_client_iff _ j2).mp htrue with ⟨hne, -⟩
    exact hne rfl
  exact ⟨hfalse,
    by simp [handle_enqueue, hobj2, hfalse, send_error],
    by simp [handle_getstate, hobj2, hfalse, send_error]⟩

/-- Witness for claim C2 at a concrete online state with an active
session. -/
theorem setonline_false_revokes_session_witness :
    (handle_setonline wS2 wJ2).1.is_online = false ∧
    (handle_setonline wS2 wJ2).1.session_password = "" ∧
    validate_client_password wS2 wJ2c = true ∧
    validate_client_password (handle_setonline wS2 wJ2).1 wJ2c = false ∧
    (handle_enqueue (handle_setonline wS2 wJ2).1 wJ2c).2.status = 401 ∧
    (handle_getstate (handle_setonline wS2 wJ2).1 wJ2c).2.status = 401 :=
  ⟨(setonline_false_revokes_session wS2 wJ2 (by decide) (by decide)).1,
   (setonline_false_revokes_session wS2 wJ2 (by decide) (by decide)).2.1,
   by decide,
   ((setonline_false_revokes_session wS2 wJ2 (by decide) (by decide)).2.2
     wJ2c (by decide)).1,
   ((setonline_false_revokes_session wS2 wJ2 (by decide) (by decide)).2.2
     wJ2c (by decide)).2.1,
   ((setonline_false_revokes_session wS2 wJ2 (by decide) (by decide)).2.2
     wJ2c (by decide)).2.2⟩

/-- Claim C9: when `newsession` (no session active, valid server
password, no `new_password`) generates a secret, the secret has exactly
the requested length — 16 when no length is given — with every character
from the fixed alphabet, and a requested length below 10 is rejected with
HTTP 500 leaving the state unchanged. -/
theorem newsession_generated_password (rand : Nat → Nat) (s : GatewayState)
    (j : ReqBody) (hsess : s.session_password = "")
    (hauth : validate_server_password s j = true)
    (hnp : j.newPasswordField = none) :
    (∀ n, j.lengthField = some n → 10 ≤ n →
      (handle_newsession rand s j).2.status = 200 ∧
      (handle_newsession rand s j).2.password = some (generate_password rand n) ∧
      (handle_newsession rand s j).1.session_password = generate_password rand n ∧
      (generate_password rand n).length = n ∧
      ∀ c ∈ (generate_password rand n).data, c ∈ allowed_chars) ∧
    (j.lengthField = none →
      (handle_newsession rand s j).2.status = 200 ∧
      (handle_newsession rand s j).2.password = some (generate_password rand 16) ∧
      (handle_newsession rand s j).1.session_password = generate_password rand 16 ∧
      (generate_password rand 16).length = 16 ∧
      ∀ c ∈ (generate_password rand 16).data, c ∈ allowed_chars) ∧
    (∀ n, j.lengthField = some n → n < 10 →
      (handle_newsession rand s j).2.status = 500 ∧
      (handle_newsession rand s j).1 = s) := by
  have hobj := validate_server_isObject s j hauth
  refine ⟨fun n hlf h10 => ?_, fun hlf => ?_, fun n hlf hlt => ?_⟩
  · simp [handle_newsession, hsess, hobj, hauth, hnp, hlf, Nat.not_lt.mpr h10]
    exact ⟨generate_password_length rand n, generate_password_chars rand n⟩
  · simp [handle_newsession, hsess, hobj, hauth, hnp, hlf]
    exact ⟨generate_password_length rand 16, generate_password_chars rand 16⟩
  · simp [handle_newsession, hsess, hobj, hauth, hnp, hlf, hlt, send_error]

/-- Witness for claim C9 at the spec's concrete scenario (requested
length 12). -/
theorem newsession_generated_password_witness :
    (handle_newsession (fun _ => 0) wS9 wJ9).2.status = 200 ∧
    (handle_newsession (fun _ => 0) wS9 wJ9).2.password =
      some (generate_password (fun _ => 0) 12) ∧
    (handle_newsession (fun _ => 0) wS9 wJ9).1.session_password =
      generate_password (fun _ => 0) 12 ∧
    (generate_password (fun _ => 0) 12).length = 12 ∧
    ∀ c ∈ (generate_password (fun _ => 0) 12).data, c ∈ allowed_chars :=
  (newsession_generated_password (fun _ => 0) wS9 wJ9 (by decide) (by decide)
    (by decide)).1 12 (by decide) (by decide)

/-- Claim C1: a `newsession` request with a valid server password (and a
well-formed length when one is supplied) answers HTTP 401 with message
"Session already in progress" exactly when a session password is already
stored, regardless of the online flag; otherwise it stores a fresh
session secret and returns it in the response's `password` field. -/
theorem newsession_conflict_iff (rand : Nat → Nat) (s : GatewayState)
    (j : ReqBody) (hauth : validate_server_password s j = true)
    (hlen : j.newPasswordField = none → ∀ n, j.lengthField = some n → 10 ≤ n) :
    (((handle_newsession rand s j).2.status = 401 ∧
      (handle_newsession rand s j).2.error = some "Session already in progress") ↔
      s.session_password ≠ "") ∧
    (s.session_password = "" →
      (handle_newsession rand s j).2.status = 200 ∧
      ∃ p, (handle_newsession rand s j).2.password = some p ∧
           (handle_newsession rand s j).1.session_password = p) := by
  have hobj := validate_server_isObject s j hauth
  by_cases hs : s.session_password = ""
  · cases hnp : j.newPasswordField with
    | some p =>
      simp [handle_newsession, hs, hobj, hauth, hnp]
    | none =>
      cases hlf : j.lengthField with
      | some n =>
        have h10 := hlen hnp n hlf
        simp [handle_newsession, hs, hobj, hauth, hnp, hlf, Nat.not_lt.mpr h10]
      | none =>
        simp [handle_newsession, hs, hobj, hauth, hnp, hlf]
  · simp [handle_newsession, hs, send_error]

/-- Witness for claim C1 at a concrete fresh state: no session is active,
so the conflict answer is absent and a secret is minted. -/
theorem newsession_conflict_iff_witness :
    validate_server_password wS1 wJ1 = true ∧
    ((((handle_newsession (fun _ => 0) wS1 wJ1).2.status = 401 ∧
       (handle_newsession (fun _ => 0) wS1 wJ1).2.error =
         some "Session already in progress") ↔ wS1.session_password ≠ "") ∧
     (wS1.session_password = "" →
       (handle_newsession (fun _ => 0) wS1 wJ1).2.status = 200 ∧
       ∃ p, (handle_newsession (fun _ => 0) wS1 wJ1).2.password = some p ∧
            (handle_newsession (fun _ => 0) wS1 wJ1).1.session_password = p)) :=
  ⟨by decide, newsession_conflict_iff (fun _ => 0) wS1 wJ1 (by decide)
    (by intro _ n h; simp [wJ1, ReqBody.lengthField] at h; omega)⟩

/-- Counterexample to claim C7 as stated: a body lacking the required
`password` field yields HTTP 401 (treated as an authentication failure),
not the HTTP 500 the malformed-input taxonomy assigns to missing required
fields. -/
theorem missing_password_gives_401 :
    missReq.passwordField = none ∧
    (handle_enqueue missState missReq).2.status = 401 ∧
    ¬ (handle_enqueue missState missReq).2.status = 500 := by
  refine ⟨rfl, rfl, by decide⟩

/-- Claim C7 amended: a request missing a required non-credential field
(`tasks`, `is_online`, `state`) yields HTTP 500 with a machine-readable
body of false `status` and an `error` message, while a missing or wrong
password yields HTTP 401; the two cases are distinct. -/
theorem error_taxonomy (s : GatewayState) (j : ReqBody) (hobj : j.isObject = true) :
    (validate_client_password s j = true → j.tasksField = none →
      (handle_enqueue s j).2.status = 500 ∧
      (handle_enqueue s j).2.statusField = some false ∧
      ∃ m, (handle_enqueue s j).2.error = some m) ∧
    (validate_client_password s j = false →
      (handle_enqueue s j).2.status = 401 ∧ (handle_getstate s j).2.status = 401) ∧
    (validate_server_password s j = true → j.isOnlineField = none →
      (handle_setonline s j).2.status = 500 ∧
      (handle_setonline s j).2.statusField = some false ∧
      ∃ m, (handle_setonline s j).2.error = some m) ∧
    (validate_server_password s j = true → j.stateField = none →
      (handle_setstate s j).2.status = 500 ∧
      (handle_setstate s j).2.statusField = some false ∧
      ∃ m, (handle_setstate s j).2.error = some m) ∧
    (validate_server_password s j = false →
      (handle_setonline s j).2.status = 401 ∧ (handle_fetch s j).2.status = 401 ∧
      (handle_setstate s j).2.status = 401) := by
  refine ⟨fun hv ht => ?_, fun hv => ?_, fun hv hf => ?_, fun hv hf => ?_, fun hv => ?_⟩
  · simp [handle_enqueue, hobj, hv, ht, send_error]
  · simp [handle_enqueue, handle_getstate, hobj, hv, send_error]
  · simp [handle_setonline, hobj, hv, hf, send_error]
  · simp [handle_setstate, hobj, hv, hf, send_error]
  · simp [handle_setonline, handle_fetch, handle_setstate, hobj, hv, send_error]

/-- Witness for the amended claim C7 at a concrete authenticated enqueue
request lacking the `tasks` field. -/
theorem error_taxonomy_witness :
    (handle_enqueue wS7 wJ7).2.status = 500 ∧
    (handle_enqueue wS7 wJ7).2.statusField = some false ∧
    ∃ m, (handle_enqueue wS7 wJ7).2.error = some m :=
  (error_taxonomy wS7 wJ7 (by decide)).1 (by decide) (by decide)

end FoxGateway
